import Mathlib

/-!
Verification of the rule-scheduling and signal utility functions of the
security detection engine (signals/utils.ts). The implementation file is not
among the provided sources; only its unit-test file is. Each operation is
therefore modelled from the design specification, and every model is
cross-checked below against the concrete input and output pairs recorded in
the unit tests.

Conventions: instants and durations are integer milliseconds; date-math
expressions are an inductive type, because the date-math parser is an
external collaborator of this module; fallible operations return Option.
-/

/-- Milliseconds for one duration unit character: seconds, minutes or hours. -/
def unitMillis (c : Char) : Option Int :=
  if c = 's' then some 1000
  else if c = 'm' then some 60000
  else if c = 'h' then some 3600000
  else none

/-- Numeric value of a digit character, none for anything else. -/
def charDigit (c : Char) : Option Nat :=
  if c.isDigit then some (c.toNat - 48) else none

/-- Decimal value of a list of digit characters; none when the list is empty
or some character is not a digit. -/
def digitsVal (cs : List Char) : Option Nat :=
  if cs.isEmpty then none
  else cs.foldl (fun acc c => acc.bind (fun n => (charDigit c).map (fun d => n * 10 + d))) (some 0)

/-- Modelled from the spec: parseInterval of signals/utils.ts (the
implementation file is not among the provided sources). A schedule interval
string such as "5m" or "30s" parses to a duration in milliseconds; invalid
strings parse to none, never throw. -/
def parseInterval (s : String) : Option Int :=
  match s.data.reverse with
  | [] => none
  | u :: revDigits =>
    match digitsVal revDigits.reverse, unitMillis u with
    | some n, some m => some ((n : Int) * m)
    | _, _ => none

/-- A date-math expression as handed to the schedule-date parser: the literal
string "now", a relative offset such as "now-6m", an absolute ISO instant, or
an unparsable string (which also covers strings that do not reference now). -/
inductive DateMath where
  | now : DateMath
  | nowMinus : Nat → DateMath
  | abs : Int → DateMath
  | unparsable : DateMath
deriving DecidableEq

/-- Modelled from the spec: parseScheduleDates, the external date-math parser
collaborator of this module. Returns the absolute instant an expression
denotes relative to the current instant, or none when unparsable. -/
def parseScheduleDates (nowMs : Int) : DateMath → Option Int
  | DateMath.now => some nowMs
  | DateMath.nowMinus ms => some (nowMs - (ms : Int))
  | DateMath.abs t => some t
  | DateMath.unparsable => none

/-- Six minutes in milliseconds: the fallback lookback window used when the
from expression fails to parse or does not reference now. -/
def sixMinutes : Int := 360000

/-- Modelled from the spec: getDriftTolerance of signals/utils.ts (the
implementation file is not among the provided sources). Drift tolerance is
(parsed(to) − parsed(from)) − interval, clamped to a zero minimum, where
parsed(from) falls back to now − 6 minutes and parsed(to) falls back to now
when unparsable. The spec sentence writes the subtraction with the opposite
orientation; the unit tests of the repository fix the orientation used here. -/
def getDriftTolerance (fromE toE : DateMath) (interval nowMs : Int) : Int :=
  max ((parseScheduleDates nowMs toE).getD nowMs
        - (parseScheduleDates nowMs fromE).getD (nowMs - sixMinutes)
        - interval) 0

/-- The drift-tolerance formula exactly as the spec sentence words it:
interval − (now − parsed(from)), clamped to a zero minimum, with parsed(from)
falling back to now − 6 minutes. Stated only to be compared with
getDriftTolerance, which follows the unit tests. -/
def specDriftTolerance (fromE : DateMath) (interval nowMs : Int) : Int :=
  max (interval - (nowMs - (parseScheduleDates nowMs fromE).getD (nowMs - sixMinutes))) 0

/-- Modelled from the spec: getGapBetweenRuns of signals/utils.ts (the
implementation file is not among the provided sources). The gap is
(now − previousStartedAt) − interval − driftTolerance; none exactly when
there is no previous run or the interval string is unparsable. Negative gaps
are returned as they are, not hidden. -/
def getGapBetweenRuns (previousStartedAt : Option Int) (interval : String)
    (fromE toE : DateMath) (nowMs : Int) : Option Int :=
  match previousStartedAt, parseInterval interval with
  | some p, some iv => some (nowMs - p - iv - getDriftTolerance fromE toE iv nowMs)
  | _, _ => none

/-- Result record of the catch-up ratio computation: all three fields are
none when the rule has never run, the interval is unparsable, or the gap is
not positive. -/
structure CatchupRatio where
  maxCatchup : Option Rat
  ratio : Option Rat
  gapDiffInUnits : Option Rat
deriving DecidableEq

/-- Maximum catch-up multiplier: the capped lookback factor of the spec. The
unit test with a 65 second gap over a 10 second interval caps at five tuples
in total, fixing the factor at four. -/
def maxRuleGapRatio : Rat := 4

/-- Modelled from the spec: getGapMaxCatchupRatio of signals/utils.ts (the
implementation file is not among the provided sources). The catch-up ratio is
gap divided by interval, capped at the maximum multiplier; gapDiffInUnits is
the gap in the caller-chosen unit. All three fields are none when there is no
positive gap to report. -/
def getGapMaxCatchupRatio (previousStartedAt : Option Int) (interval : String)
    (ruleParamsFrom : DateMath) (nowMs unitMs : Int) : CatchupRatio :=
  match getGapBetweenRuns previousStartedAt interval ruleParamsFrom DateMath.now nowMs,
        parseInterval interval with
  | some gap, some iv =>
    if 0 < gap then
      { maxCatchup := some (min ((gap : Rat) / (iv : Rat)) maxRuleGapRatio)
        ratio := some ((gap : Rat) / (iv : Rat))
        gapDiffInUnits := some ((gap : Rat) / (unitMs : Rat)) }
    else { maxCatchup := none, ratio := none, gapDiffInUnits := none }
  | _, _ => { maxCatchup := none, ratio := none, gapDiffInUnits := none }

/-- One scan window: an ordered pair of instants plus the signal budget of
the window. -/
structure TimeTuple where
  toTime : Int
  fromTime : Int
  maxSignals : Rat
deriving DecidableEq

/-- The rule-configured current window, the tuple every invocation returns. -/
def currentWindowTuple (ruleParamsFrom ruleParamsTo : DateMath)
    (ruleParamsMaxSignals : Rat) (nowMs : Int) : TimeTuple :=
  { toTime := (parseScheduleDates nowMs ruleParamsTo).getD nowMs
    fromTime := (parseScheduleDates nowMs ruleParamsFrom).getD (nowMs - sixMinutes)
    maxSignals := ruleParamsMaxSignals }

/-- Modelled from the spec: getSignalTimeTuples of signals/utils.ts (the
implementation file is not among the provided sources). With no positive gap
or no previous run the result is the single current window. With a positive
gap the catch-up ratio gap ÷ interval is capped at the maximum multiplier;
when it is below one, a single extra tuple spanning exactly the gap (with a
proportionally scaled signal budget) is added, otherwise one extra tuple per
interval steps backward from the window start until the ceiling of the capped
ratio is reached. -/
def getSignalTimeTuples (gap : Option Int) (previousStartedAt : Option Int)
    (interval : String) (ruleParamsFrom ruleParamsTo : DateMath)
    (ruleParamsMaxSignals : Rat) (nowMs : Int) : List TimeTuple :=
  let current := currentWindowTuple ruleParamsFrom ruleParamsTo ruleParamsMaxSignals nowMs
  match gap, previousStartedAt, parseInterval interval with
  | some g, some _, some iv =>
    if 0 < g then
      let fromDate := (parseScheduleDates nowMs ruleParamsFrom).getD (nowMs - sixMinutes)
      let maxCatchup : Rat := min ((g : Rat) / (iv : Rat)) maxRuleGapRatio
      if maxCatchup < 1 then
        [current,
         { toTime := fromDate, fromTime := fromDate - g,
           maxSignals := ruleParamsMaxSignals * maxCatchup }]
      else
        current :: (List.range (Int.ceil maxCatchup).toNat).map (fun (k : Nat) =>
          { toTime := fromDate - (k : Int) * iv
            fromTime := fromDate - ((k : Int) + 1) * iv
            maxSignals := ruleParamsMaxSignals })
    else [current]
  | _, _, _ => [current]

/-- One ancestor reference inside a signal document. -/
structure SignalAncestor where
  id : String
  index : String
deriving DecidableEq

/-- The rule reference inside a signal document. -/
structure SignalRule where
  id : String
deriving DecidableEq

/-- The part of a signal document the identifier generators read. -/
structure Signal where
  parents : List SignalAncestor
  rule : SignalRule
deriving DecidableEq

/-- The accumulator of one search-after-and-bulk-create pass. -/
structure SearchAfterReturn where
  bulkCreateTimes : List String
  createdSignalsCount : Nat
  createdSignals : List Signal
  errors : List String
  lastLookBackDate : Option Int
  searchAfterTimes : List String
  success : Bool
deriving DecidableEq

/-- Modelled from the spec: the binary combine step of mergeReturns of
signals/utils.ts. Concatenation fields concatenate, counts add, success takes
the logical and, and lastLookBackDate takes the next value when defined and
otherwise the previous one (the unit test annotates the merged value as
taking the next lastLookBackDate). -/
def mergeSearchAfter (prev next : SearchAfterReturn) : SearchAfterReturn :=
  { bulkCreateTimes := prev.bulkCreateTimes ++ next.bulkCreateTimes
    createdSignalsCount := prev.createdSignalsCount + next.createdSignalsCount
    createdSignals := prev.createdSignals ++ next.createdSignals
    errors := prev.errors ++ next.errors
    lastLookBackDate := next.lastLookBackDate.orElse (fun _ => prev.lastLookBackDate)
    searchAfterTimes := prev.searchAfterTimes ++ next.searchAfterTimes
    success := prev.success && next.success }

/-- Modelled from the spec: mergeReturns of signals/utils.ts folds a nonempty
list of accumulators left to right with the binary combine step; the
underlying JavaScript reduce with no seed throws on an empty array, modelled
here as none. -/
def mergeReturns : List SearchAfterReturn → Option SearchAfterReturn
  | [] => none
  | x :: xs => some (xs.foldl mergeSearchAfter x)

/-- The optional per-field override record accepted by
createSearchAfterReturnType; none means the field was not supplied. -/
structure SearchAfterOverrides where
  bulkCreateTimes : Option (List String)
  createdSignalsCount : Option Nat
  createdSignals : Option (List Signal)
  errors : Option (List String)
  lastLookBackDate : Option (Option Int)
  searchAfterTimes : Option (List String)
  success : Option Bool
deriving DecidableEq

/-- The empty override record: no field supplied. -/
def noOverrides : SearchAfterOverrides :=
  { bulkCreateTimes := none, createdSignalsCount := none, createdSignals := none,
    errors := none, lastLookBackDate := none, searchAfterTimes := none, success := none }

/-- Modelled from the spec: createSearchAfterReturnType of signals/utils.ts
builds an accumulator from a partial override record, defaulting every
missing field (empty lists, zero count, no lookback date, success true). -/
def createSearchAfterReturnType (o : SearchAfterOverrides) : SearchAfterReturn :=
  { bulkCreateTimes := o.bulkCreateTimes.getD []
    createdSignalsCount := o.createdSignalsCount.getD 0
    createdSignals := o.createdSignals.getD []
    errors := o.errors.getD []
    lastLookBackDate := o.lastLookBackDate.getD none
    searchAfterTimes := o.searchAfterTimes.getD []
    success := o.success.getD true }

/-- A timestamp attribute value as seen in a search hit: a date string that
parses to an instant, a syntactically invalid date string, or an explicit
null; a missing attribute is the absence of the key. -/
inductive TsValue where
  | validDate : Int → TsValue
  | invalidStr : TsValue
  | nullV : TsValue
deriving DecidableEq

/-- First value bound to a key in an association list, none when absent. -/
def lookupAssoc {α : Type} (l : List (String × α)) (k : String) : Option α :=
  (l.find? (fun p => p.1 == k)).map (fun p => p.2)

/-- One search hit: the raw source document and the fields projection, both
as association lists from attribute name to value. An absent fields
projection is the empty list. -/
structure SearchHit where
  source : List (String × TsValue)
  fields : List (String × List TsValue)
deriving DecidableEq

/-- The slice of a search response the utilities read: the hits and the
count of failed shards. -/
structure SearchResult where
  hits : List SearchHit
  shardFailed : Nat
deriving DecidableEq

/-- The timestamp attribute value a hit yields for a given attribute name:
the fields projection is consulted first (taking the head of its value
array) and the raw source document only when the projection lacks the key. -/
def extractTimestampValue (hit : SearchHit) (name : String) : Option TsValue :=
  match lookupAssoc hit.fields name with
  | some vs => vs.head?
  | none => lookupAssoc hit.source name

/-- Modelled from the spec: lastValidDate of signals/utils.ts (the
implementation file is not among the provided sources). Extracts the
timestamp of the last hit: the override field name when supplied, otherwise
the default timestamp attribute; the fields projection is consulted before
the raw source document. Missing, null and syntactically invalid values
give none rather than an error. -/
def lastValidDate (searchResult : SearchResult) (timestampOverride : Option String) : Option Int :=
  (searchResult.hits.getLast?).bind (fun lastRecord =>
    match extractTimestampValue lastRecord (timestampOverride.getD "@timestamp") with
    | some (TsValue.validDate t) => some t
    | _ => none)

/-- Modelled from the spec: createSearchAfterReturnTypeFromResponse of
signals/utils.ts builds a fresh accumulator whose success flag records
whether no shard failed and whose lookback date is the extracted last valid
timestamp. -/
def createSearchAfterReturnTypeFromResponse (searchResult : SearchResult)
    (timestampOverride : Option String) : SearchAfterReturn :=
  createSearchAfterReturnType
    { noOverrides with
      success := some (searchResult.shardFailed == 0)
      lastLookBackDate := some (lastValidDate searchResult timestampOverride) }

/-- The error detail of one failed bulk item. -/
structure BulkItemError where
  reason : String
deriving DecidableEq

/-- The create outcome of one bulk item: its status code and, when it
failed, the error detail. -/
structure BulkCreateResult where
  status : Nat
  error : Option BulkItemError
deriving DecidableEq

/-- One bulk response item; the create outcome may be absent entirely. -/
structure BulkItem where
  create : Option BulkCreateResult
deriving DecidableEq

/-- The slice of a bulk response the error aggregator reads. -/
structure BulkResponse where
  items : List BulkItem
deriving DecidableEq

/-- The aggregation result: reason mapped to occurrence count and status
code, in insertion order of first occurrence. -/
abbrev BulkResponseErrorAggregation := List (String × Nat × Nat)

/-- Record one error occurrence: bump the count of an existing reason in
place (updating its status code) or append a new reason at the end. -/
def aggAdd : BulkResponseErrorAggregation → String → Nat → BulkResponseErrorAggregation
  | [], reason, status => [(reason, 1, status)]
  | (r, c, s) :: rest, reason, status =>
    if r == reason then (r, c + 1, status) :: rest
    else (r, c, s) :: aggAdd rest reason status

/-- The fold step of the error aggregator: items without a create outcome,
items without an error, and items whose status code is ignored leave the
accumulator unchanged. -/
def errorAggStep (ignoreStatusCodes : List Nat) (accum : BulkResponseErrorAggregation)
    (item : BulkItem) : BulkResponseErrorAggregation :=
  match item.create with
  | some c =>
    match c.error with
    | some e =>
      if ignoreStatusCodes.contains c.status then accum else aggAdd accum e.reason c.status
    | none => accum
  | none => accum

/-- Modelled from the spec: errorAggregator of signals/utils.ts (the
implementation file is not among the provided sources). Reduces the bulk
items into counts keyed by error reason, carrying the status code, skipping
every item whose status code is in the ignore list. -/
def errorAggregator (response : BulkResponse) (ignoreStatusCodes : List Nat) :
    BulkResponseErrorAggregation :=
  response.items.foldl (errorAggStep ignoreStatusCodes) []

/-- Whether a bulk item contributes to the aggregation: it has a create
outcome carrying an error and its status code is not ignored. -/
def contributesError (ignoreStatusCodes : List Nat) (item : BulkItem) : Bool :=
  match item.create with
  | some c => c.error.isSome && !(ignoreStatusCodes.contains c.status)
  | none => false

/-- Modelled from the spec: the SHA-256 hex digest used by the identifier
generators is an external crypto primitive; it is modelled as an injective
placeholder (the identity on the input string), so equality and distinctness
of identifiers are settled at the level of the hashed input string, under
the collision-resistance assumption the spec makes for the real digest. -/
def sha256Hex (s : String) : String := s

/-- Modelled from the spec: generateId of signals/utils.ts hashes the plain
concatenation index ++ docId ++ version ++ ruleId; the recorded unit-test
vector is exactly the SHA-256 digest of that concatenation with no
delimiter. -/
def generateId (docIndex docId version ruleId : String) : String :=
  sha256Hex (docIndex ++ docId ++ version ++ ruleId)

/-- Modelled from the spec: generateSignalId of signals/utils.ts hashes the
concatenation of the id and index of every parent of the signal followed by
the rule id. -/
def generateSignalId (signal : Signal) : String :=
  sha256Hex ((signal.parents.foldl (fun acc parent => acc ++ parent.id ++ parent.index) "")
    ++ signal.rule.id)

/-- A wrapped building block: the generated identifier, the destination
index and the original signal document. -/
structure WrappedSignalHit where
  hitId : String
  hitIndex : String
  source : Signal
deriving DecidableEq

/-- Modelled from the spec: wrapBuildingBlocks of signals/utils.ts assigns
every building block an identifier derived from the index name, the position
of the block in the batch, the batch length and the rule id, so identical
batches reproduce identical identifiers while distinct positions or batch
shapes give distinct identifiers, as the unit tests require. -/
def wrapBuildingBlocks (buildingBlocks : List Signal) (index : String) : List WrappedSignalHit :=
  buildingBlocks.enum.map (fun p =>
    { hitId := generateId index (toString p.1) (toString buildingBlocks.length) p.2.rule.id
      hitIndex := index
      source := p.2 })

/-- A search hit with only a raw source document. -/
def hitWithSource (l : List (String × TsValue)) : SearchHit :=
  { source := l, fields := [] }

/-- A search hit with a raw source document and a fields projection. -/
def hitWithFields (s : List (String × TsValue)) (f : List (String × List TsValue)) : SearchHit :=
  { source := s, fields := f }

/-- A search result with a single hit and no shard failures. -/
def singleHitResult (h : SearchHit) : SearchResult :=
  { hits := [h], shardFailed := 0 }

/-- A bulk item that failed with the given status code and reason. -/
def bulkErrorItem (status : Nat) (reason : String) : BulkItem :=
  { create := some { status := status, error := some { reason := reason } } }

/-- A sample signal document, mirroring the sample hit of the unit tests. -/
def sampleSignal : Signal := { parents := [], rule := { id := "rule-1" } }

/-- A bulk response holding one ignorable conflict item and one network
error item, used to instantiate the aggregation theorems. -/
def sampleBulkPair : BulkResponse :=
  { items := [bulkErrorItem 409 "Conflict Error", bulkErrorItem 500 "Bad Network"] }

/-- Left cancellation for string concatenation. -/
theorem strAppend_left_cancel {a b c : String} (h : a ++ b = a ++ c) : b = c := by
  have hd := congrArg String.data h
  simp only [String.data_append] at hd
  exact String.ext (List.append_cancel_left hd)

/-- Right cancellation for string concatenation. -/
theorem strAppend_right_cancel {a b c : String} (h : a ++ c = b ++ c) : a = b := by
  have hd := congrArg String.data h
  simp only [String.data_append] at hd
  exact String.ext (List.append_cancel_right hd)

/-- Items that do not contribute an error leave the fold of the error
aggregator unchanged, so filtering the items down to the contributing ones
first gives the same aggregation. -/
theorem errorAgg_foldl_filter (codes : List Nat) (items : List BulkItem) :
    ∀ accum : BulkResponseErrorAggregation,
      (items.filter (contributesError codes)).foldl (errorAggStep codes) accum
        = items.foldl (errorAggStep codes) accum := by
  induction items with
  | nil => intro accum; rfl
  | cons it rest ih =>
    intro accum
    by_cases h : contributesError codes it
    · simp only [List.filter_cons, h, if_true, List.foldl_cons]
      exact ih (errorAggStep codes accum it)
    · have hstep : errorAggStep codes accum it = accum := by
        unfold contributesError at h
        cases hc : it.create with
        | none => simp [errorAggStep, hc]
        | some c =>
          cases hcerr : c.error with
          | none => simp [errorAggStep, hc, hcerr]
          | some e =>
            simp only [hc, hcerr, Option.isSome_some, Bool.true_and, Bool.not_eq_true,
              Bool.not_eq_true', Bool.not_eq_false] at h
            have hmem : c.status ∈ codes := by simpa using h
            simp [errorAggStep, hc, hcerr, hmem]
      simp only [List.filter_cons, h, if_false, List.foldl_cons, hstep]
      exact ih accum

/-- C1: with a previous run and a parsable interval, getGapBetweenRuns is
the duration (now − previousStartedAt) − interval − driftTolerance, and the
result is none exactly when previousStartedAt is none or the interval string
is unparsable, regardless of the from and to expressions; the concrete gap
cases of the unit tests (a negative one minute gap, a missing previous run
and an invalid interval) are reproduced. -/
theorem getGapBetweenRuns_formula_and_nullity (prev : Option Int) (ivs : String)
    (f t : DateMath) (nowMs : Int) :
    getGapBetweenRuns prev ivs f t nowMs
      = prev.bind (fun p => (parseInterval ivs).map
          (fun iv => nowMs - p - iv - getDriftTolerance f t iv nowMs))
    ∧ (getGapBetweenRuns prev ivs f t nowMs = none ↔ prev = none ∨ parseInterval ivs = none)
    ∧ getGapBetweenRuns (some (-300000)) "5m" (DateMath.nowMinus 360000) DateMath.now 0
        = some (-60000)
    ∧ getGapBetweenRuns none "5m" (DateMath.nowMinus 300000) DateMath.now 0 = none
    ∧ getGapBetweenRuns (some 0) "invalid" (DateMath.nowMinus 300000) DateMath.now 0 = none := by
  refine ⟨?_, ?_, by decide, by decide, by decide⟩
  · cases prev with
    | none => rfl
    | some p =>
      cases h : parseInterval ivs with
      | none => simp [getGapBetweenRuns, h]
      | some iv => simp [getGapBetweenRuns, h]
  · cases prev with
    | none => simp [getGapBetweenRuns]
    | some p =>
      cases h : parseInterval ivs with
      | none => simp [getGapBetweenRuns, h]
      | some iv => simp [getGapBetweenRuns, h]

/-- C1 witness: the gap formula instantiated at the seven minute late run of
the unit tests. -/
theorem getGapBetweenRuns_formula_witness :
    getGapBetweenRuns (some (-420000)) "5m" (DateMath.nowMinus 360000) DateMath.now 0
      = (some ((-420000 : Int))).bind (fun p => (parseInterval "5m").map
          (fun iv => 0 - p - iv - getDriftTolerance (DateMath.nowMinus 360000) DateMath.now iv 0)) :=
  (getGapBetweenRuns_formula_and_nullity (some (-420000)) "5m" (DateMath.nowMinus 360000)
    DateMath.now 0).1

/-- C2 counterexample: at from = now − 10m, to = now, interval = 5m — the
unit-test case that expects a drift of 5 minutes — the formula of the claim,
interval − (now − parsed(from)) clamped at a zero minimum, yields 0, while
getDriftTolerance yields 5 minutes, so the claimed equality fails. -/
theorem getDriftTolerance_spec_formula_counterexample :
    specDriftTolerance (DateMath.nowMinus 600000) 300000 0 = 0
    ∧ getDriftTolerance (DateMath.nowMinus 600000) DateMath.now 300000 0 = 300000
    ∧ specDriftTolerance (DateMath.nowMinus 600000) 300000 0
        ≠ getDriftTolerance (DateMath.nowMinus 600000) DateMath.now 300000 0 := by
  decide

/-- C2 amended: getDriftTolerance returns (parsed(to) − parsed(from)) −
interval clamped to a zero minimum — the subtraction is oriented window
width minus interval, the opposite of the claimed orientation — where
parsed(from) falls back to now − 6 minutes when from fails to parse or does
not reference now, and parsed(to) falls back to now; the drift is 0 whenever
from equals now − interval and to is now; the concrete unit-test cases
(1 minute, 0, the unparsable fallback and a relative to) are reproduced. -/
theorem getDriftTolerance_formula (f t : DateMath) (interval nowMs : Int) :
    getDriftTolerance f t interval nowMs
      = max ((parseScheduleDates nowMs t).getD nowMs
              - (parseScheduleDates nowMs f).getD (nowMs - sixMinutes)
              - interval) 0
    ∧ (∀ n : Nat, getDriftTolerance (DateMath.nowMinus n) DateMath.now (n : Int) nowMs = 0)
    ∧ getDriftTolerance (DateMath.nowMinus 360000) DateMath.now 300000 0 = 60000
    ∧ getDriftTolerance (DateMath.nowMinus 300000) DateMath.now 300000 0 = 0
    ∧ getDriftTolerance DateMath.unparsable DateMath.now 300000 0 = 60000
    ∧ getDriftTolerance (DateMath.nowMinus 600000) (DateMath.nowMinus 60000) 300000 0 = 240000 := by
  refine ⟨rfl, ?_, by decide, by decide, by decide, by decide⟩
  intro n
  have h : nowMs - (nowMs - (n : Int)) - (n : Int) = 0 := by ring
  simp [getDriftTolerance, parseScheduleDates, h]

/-- C2 witness: the zero drift of a from expression that equals
now − interval, at a 5 minute interval. -/
theorem getDriftTolerance_formula_witness :
    getDriftTolerance (DateMath.nowMinus 300000) DateMath.now ((300000 : Nat) : Int) 0 = 0 :=
  (getDriftTolerance_formula DateMath.now DateMath.now 0 0).2.1 300000

/-- C3: with a positive gap, a positive parsable interval and a previous
run, the number of tuples getSignalTimeTuples returns is
min(ceil(gap ÷ interval) + 1, 5), the maximum lookback of four catch-up
tuples plus the current window; with no gap the single tuple returned is the
current window of the rule; the unit test with a 65 second gap over a
10 second interval returns exactly five tuples, the first spanning the
13 second configured window and every later one spanning exactly the
interval, and the no-gap unit test spans exactly the 30 second window. -/
theorem getSignalTimeTuples_count (g iv : Int) (ivs : String) (prev : Int)
    (f t : DateMath) (ms : Rat) (nowMs : Int)
    (hiv : parseInterval ivs = some iv) (hivpos : 0 < iv) (hg : 0 < g) :
    ((getSignalTimeTuples (some g) (some prev) ivs f t ms nowMs).length : Int)
      = min (⌈(g : Rat) / (iv : Rat)⌉ + 1) 5
    ∧ (∀ p : Option Int, getSignalTimeTuples none p ivs f t ms nowMs
        = [currentWindowTuple f t ms nowMs])
    ∧ (getSignalTimeTuples (some 65000) (some (-65000)) "10s" (DateMath.nowMinus 13000)
        DateMath.now 20 0).length = 5
    ∧ (getSignalTimeTuples (some 65000) (some (-65000)) "10s" (DateMath.nowMinus 13000)
        DateMath.now 20 0).map (fun tu => tu.toTime - tu.fromTime)
        = [13000, 10000, 10000, 10000, 10000]
    ∧ (getSignalTimeTuples none (some (-30000)) "30s" (DateMath.nowMinus 30000)
        DateMath.now 20 0).map (fun tu => tu.toTime - tu.fromTime) = [30000] := by
  have hpi : parseInterval "10s" = some 10000 := by decide
  have hmin : min (((65000 : Int) : Rat) / ((10000 : Int) : Rat)) maxRuleGapRatio
      = maxRuleGapRatio := by
    apply min_eq_right
    rw [maxRuleGapRatio]
    norm_num
  have hnotlt : ¬ min (((65000 : Int) : Rat) / ((10000 : Int) : Rat)) maxRuleGapRatio < 1 := by
    rw [hmin, maxRuleGapRatio]
    norm_num
  have hceil : ⌈min (((65000 : Int) : Rat) / ((10000 : Int) : Rat)) maxRuleGapRatio⌉ = 4 := by
    rw [hmin, maxRuleGapRatio]
    norm_num
  have h65 : getSignalTimeTuples (some 65000) (some (-65000)) "10s" (DateMath.nowMinus 13000)
      DateMath.now 20 0
      = [{ toTime := 0, fromTime := -13000, maxSignals := 20 },
         { toTime := -13000, fromTime := -23000, maxSignals := 20 },
         { toTime := -23000, fromTime := -33000, maxSignals := 20 },
         { toTime := -33000, fromTime := -43000, maxSignals := 20 },
         { toTime := -43000, fromTime := -53000, maxSignals := 20 }] := by
    unfold getSignalTimeTuples
    rw [hpi]
    simp only [if_pos (by norm_num : (0 : Int) < 65000), if_neg hnotlt, hceil]
    simp [currentWindowTuple, parseScheduleDates, sixMinutes, List.range_succ]
  refine ⟨?_, fun p => rfl, by rw [h65]; rfl, by rw [h65]; rfl, rfl⟩
  unfold getSignalTimeTuples
  rw [hiv]
  simp only [if_pos hg]
  set r : Rat := (g : Rat) / (iv : Rat) with hr
  have hrpos : 0 < r := div_pos (by exact_mod_cast hg) (by exact_mod_cast hivpos)
  by_cases hlt : min r maxRuleGapRatio < 1
  · rw [if_pos hlt]
    have hr1 : r < 1 := by
      rcases min_lt_iff.mp hlt with h | h
      · exact h
      · norm_num [maxRuleGapRatio] at h
    have hceil1 : ⌈r⌉ = 1 := by
      rw [Int.ceil_eq_iff]
      constructor
      · simpa using hrpos
      · exact_mod_cast le_of_lt hr1
    rw [hceil1]
    norm_num
  · rw [if_neg hlt]
    have h1le : (1 : Rat) ≤ min r maxRuleGapRatio := not_lt.mp hlt
    have hminpos : (0 : Rat) < min r maxRuleGapRatio := lt_of_lt_of_le one_pos h1le
    have hceil_pos : 0 < ⌈min r maxRuleGapRatio⌉ := Int.ceil_pos.mpr hminpos
    have h4 : ⌈(maxRuleGapRatio : Rat)⌉ = 4 := by
      have he : (maxRuleGapRatio : Rat) = ((4 : Int) : Rat) := by norm_num [maxRuleGapRatio]
      rw [he, Int.ceil_intCast]
    have hceilmin : ⌈min r maxRuleGapRatio⌉ = min ⌈r⌉ 4 := by
      rcases le_total r maxRuleGapRatio with hle | hle
      · rw [min_eq_left hle, min_eq_left]
        calc ⌈r⌉ ≤ ⌈(maxRuleGapRatio : Rat)⌉ := Int.ceil_mono hle
          _ = 4 := h4
      · rw [min_eq_right hle, h4, min_eq_right]
        calc (4 : Int) = ⌈(maxRuleGapRatio : Rat)⌉ := h4.symm
          _ ≤ ⌈r⌉ := Int.ceil_mono hle
    simp only [List.length_cons, List.length_map, List.length_range]
    omega

/-- C3 witness: the tuple count formula instantiated at the capped 65 second
gap over the 10 second interval of the unit tests. -/
theorem getSignalTimeTuples_count_witness :
    ((getSignalTimeTuples (some 65000) (some (-65000)) "10s" (DateMath.nowMinus 13000)
        DateMath.now 20 0).length : Int)
      = min (⌈((65000 : Int) : Rat) / ((10000 : Int) : Rat)⌉ + 1) 5 :=
  (getSignalTimeTuples_count 65000 10000 "10s" (-65000) (DateMath.nowMinus 13000)
    DateMath.now 20 0 (by decide) (by decide) (by decide)).1

/-- C4: when the computed gap is negative it is still returned as the raw
negative duration (the unit-test case of a minute early run yields minus one
minute, not none), while getGapMaxCatchupRatio reports all three of
maxCatchup, ratio and gapDiffInUnits as none and the tuple generator
returns only the single current window. -/
theorem negativeGap_behavior (prev : Int) (ivs : String) (f t : DateMath)
    (nowMs unitMs : Int) (g : Int) (ms : Rat)
    (hgap : getGapBetweenRuns (some prev) ivs f DateMath.now nowMs = some g)
    (hneg : g < 0) :
    getGapMaxCatchupRatio (some prev) ivs f nowMs unitMs
      = { maxCatchup := none, ratio := none, gapDiffInUnits := none }
    ∧ (∀ p : Option Int, getSignalTimeTuples (some g) p ivs f t ms nowMs
        = [currentWindowTuple f t ms nowMs])
    ∧ getGapBetweenRuns (some (-300000)) "5m" (DateMath.nowMinus 360000) DateMath.now 0
        = some (-60000) := by
  refine ⟨?_, ?_, by decide⟩
  · unfold getGapMaxCatchupRatio
    rw [hgap]
    cases hpi : parseInterval ivs with
    | none => rfl
    | some iv => simp only [if_neg (not_lt.mpr (le_of_lt hneg))]
  · intro p
    unfold getSignalTimeTuples
    cases p with
    | none => rfl
    | some pv =>
      cases hpi : parseInterval ivs with
      | none => rfl
      | some iv => simp only [if_neg (not_lt.mpr (le_of_lt hneg))]

/-- C4 witness: the early run of the unit tests, whose internally computed
gap is negative, reports none for all three catch-up fields, and a negative
15 second gap produces only the current window. -/
theorem negativeGap_behavior_witness :
    getGapMaxCatchupRatio (some 15000) "10s" (DateMath.nowMinus 13000) 0 1000
      = { maxCatchup := none, ratio := none, gapDiffInUnits := none }
    ∧ getSignalTimeTuples (some (-15000)) (some 15000) "10s" (DateMath.nowMinus 13000)
        DateMath.now 20 0
        = [currentWindowTuple (DateMath.nowMinus 13000) DateMath.now 20 0] := by
  have h := negativeGap_behavior 15000 "10s" (DateMath.nowMinus 13000) DateMath.now 0 1000
    (-28000) 20 (by decide) (by decide)
  have h2 := negativeGap_behavior 2000 "10s" (DateMath.nowMinus 13000) DateMath.now 0 1000
    (-15000) 20 (by decide) (by decide)
  exact ⟨h.1, h2.2.1 (some 15000)⟩

/-- C5: the binary combine step of mergeReturns is associative — in
particular on the four concatenation fields errors, bulkCreateTimes,
searchAfterTimes and createdSignals, so merging three accumulators gives the
same concatenated lists under either grouping — and the merged success flag
is the logical and of the success flags of all inputs. -/
theorem mergeReturns_associative (a b c : SearchAfterReturn) :
    mergeSearchAfter (mergeSearchAfter a b) c = mergeSearchAfter a (mergeSearchAfter b c)
    ∧ (mergeReturns [a, b, c]).map SearchAfterReturn.errors
        = some (a.errors ++ b.errors ++ c.errors)
    ∧ (mergeReturns [a, b, c]).map SearchAfterReturn.bulkCreateTimes
        = some (a.bulkCreateTimes ++ b.bulkCreateTimes ++ c.bulkCreateTimes)
    ∧ (mergeReturns [a, b, c]).map SearchAfterReturn.searchAfterTimes
        = some (a.searchAfterTimes ++ b.searchAfterTimes ++ c.searchAfterTimes)
    ∧ (mergeReturns [a, b, c]).map SearchAfterReturn.createdSignals
        = some (a.createdSignals ++ b.createdSignals ++ c.createdSignals)
    ∧ (mergeReturns [a, b, c]).map SearchAfterReturn.success
        = some (a.success && b.success && c.success) := by
  refine ⟨?_, ?_, ?_, ?_, ?_, ?_⟩
  · cases hc : c.lastLookBackDate <;>
      simp [mergeSearchAfter, hc, List.append_assoc, Nat.add_assoc, Bool.and_assoc]
  · simp [mergeReturns, mergeSearchAfter, List.append_assoc]
  · simp [mergeReturns, mergeSearchAfter, List.append_assoc]
  · simp [mergeReturns, mergeSearchAfter, List.append_assoc]
  · simp [mergeReturns, mergeSearchAfter, List.append_assoc]
  · simp [mergeReturns, mergeSearchAfter, Bool.and_assoc]

/-- C5 witness: associativity of the combine step instantiated at three
default accumulators. -/
theorem mergeReturns_associative_witness :
    mergeSearchAfter (mergeSearchAfter (createSearchAfterReturnType noOverrides)
        (createSearchAfterReturnType noOverrides)) (createSearchAfterReturnType noOverrides)
      = mergeSearchAfter (createSearchAfterReturnType noOverrides)
          (mergeSearchAfter (createSearchAfterReturnType noOverrides)
            (createSearchAfterReturnType noOverrides)) :=
  (mergeReturns_associative (createSearchAfterReturnType noOverrides)
    (createSearchAfterReturnType noOverrides) (createSearchAfterReturnType noOverrides)).1

/-- C6 counterexample: merging a previous accumulator whose lookback date is
the later instant 200 with a next accumulator whose lookback date is the
earlier instant 100 yields 100 — the next value — and not the most recent of
the two sides, so the claimed most-recent rule fails. -/
theorem mergeReturns_lastLookBack_counterexample :
    (mergeReturns
        [createSearchAfterReturnType { noOverrides with lastLookBackDate := some (some 200) },
         createSearchAfterReturnType { noOverrides with lastLookBackDate := some (some 100) }]).map
      SearchAfterReturn.lastLookBackDate = some (some 100)
    ∧ max (200 : Int) 100 = 200
    ∧ (100 : Int) ≠ 200 :=
  ⟨rfl, by decide, by decide⟩

/-- C6 amended: the merged lastLookBackDate is the next value whenever the
next side has a defined one and the previous value otherwise — so when
exactly one side has a defined value the merged result is that value — and
the concrete unit-test cases (next date taken when both are given, previous
date kept when the next is undefined) are reproduced. -/
theorem mergeReturns_lastLookBack (a b : SearchAfterReturn) :
    (mergeSearchAfter a b).lastLookBackDate
      = (match b.lastLookBackDate with
         | some d => some d
         | none => a.lastLookBackDate)
    ∧ (b.lastLookBackDate = none → (mergeSearchAfter a b).lastLookBackDate = a.lastLookBackDate)
    ∧ (a.lastLookBackDate = none → (mergeSearchAfter a b).lastLookBackDate
        = b.lastLookBackDate)
    ∧ (∀ d : Int, b.lastLookBackDate = some d
        → (mergeSearchAfter a b).lastLookBackDate = some d)
    ∧ (mergeReturns
        [createSearchAfterReturnType { noOverrides with lastLookBackDate := some (some 100) },
         createSearchAfterReturnType { noOverrides with lastLookBackDate := some (some 200) }]).map
        SearchAfterReturn.lastLookBackDate = some (some 200)
    ∧ (mergeReturns
        [createSearchAfterReturnType { noOverrides with lastLookBackDate := some (some 100) },
         createSearchAfterReturnType noOverrides]).map
        SearchAfterReturn.lastLookBackDate = some (some 100) := by
  refine ⟨?_, ?_, ?_, ?_, rfl, rfl⟩
  · cases hb : b.lastLookBackDate <;> simp [mergeSearchAfter, hb]
  · intro hb; simp [mergeSearchAfter, hb]
  · intro ha; cases hb : b.lastLookBackDate <;> simp [mergeSearchAfter, hb, ha]
  · intro d hb; simp [mergeSearchAfter, hb]

/-- C6 witness: an undefined next lookback date keeps the defined previous
one. -/
theorem mergeReturns_lastLookBack_witness :
    (mergeSearchAfter
        (createSearchAfterReturnType { noOverrides with lastLookBackDate := some (some 7) })
        (createSearchAfterReturnType noOverrides)).lastLookBackDate = some 7 :=
  ((mergeReturns_lastLookBack
      (createSearchAfterReturnType { noOverrides with lastLookBackDate := some (some 7) })
      (createSearchAfterReturnType noOverrides)).2.1 rfl).trans rfl

/-- C7: lastValidDate yields a defined instant exactly when the last hit
carries a parsable timestamp value under the selected attribute — the
override name when supplied, the default timestamp attribute otherwise, with
the fields projection consulted before the raw source — so missing, null and
syntactically invalid values give none and never an error; the response
conversion carries this value as the lookback date and records shard
failures in its success flag; the concrete unit-test cases (null, missing
and invalid values, the fields projection, and the override read from source
and from fields) are reproduced. -/
theorem lastValidDate_behavior (sr : SearchResult) (tso : Option String) :
    (∀ t : Int, lastValidDate sr tso = some t
        ↔ ∃ h, sr.hits.getLast? = some h
            ∧ extractTimestampValue h (tso.getD "@timestamp") = some (TsValue.validDate t))
    ∧ (createSearchAfterReturnTypeFromResponse sr tso).lastLookBackDate = lastValidDate sr tso
    ∧ (createSearchAfterReturnTypeFromResponse sr tso).success = (sr.shardFailed == 0)
    ∧ lastValidDate (singleHitResult (hitWithSource [("@timestamp", TsValue.nullV)])) none = none
    ∧ lastValidDate (singleHitResult (hitWithSource [])) none = none
    ∧ lastValidDate (singleHitResult (hitWithSource [("@timestamp", TsValue.invalidStr)])) none
        = none
    ∧ lastValidDate
        (singleHitResult (hitWithSource [("@timestamp", TsValue.validDate 1587418065000)])) none
        = some 1587418065000
    ∧ lastValidDate
        (singleHitResult (hitWithFields [("@timestamp", TsValue.validDate 1)]
          [("@timestamp", [TsValue.validDate 2])])) none = some 2
    ∧ lastValidDate
        (singleHitResult (hitWithSource
          [("@timestamp", TsValue.validDate 1), ("different_timestamp", TsValue.validDate 3)]))
        (some "different_timestamp") = some 3
    ∧ lastValidDate
        (singleHitResult (hitWithFields [("different_timestamp", TsValue.validDate 6)]
          [("different_timestamp", [TsValue.validDate 5])]))
        (some "different_timestamp") = some 5 := by
  refine ⟨?_, rfl, rfl, by decide, by decide, by decide, by decide, by decide, by decide,
    by decide⟩
  intro t
  cases hg : sr.hits.getLast? with
  | none => simp [lastValidDate, hg]
  | some h =>
    cases he : extractTimestampValue h (tso.getD "@timestamp") with
    | none => simp [lastValidDate, hg, he]
    | some v =>
      cases v with
      | validDate u => simp [lastValidDate, hg, he]
      | invalidStr => simp [lastValidDate, hg, he]
      | nullV => simp [lastValidDate, hg, he]

/-- C7 witness: the characterization instantiated at a single hit whose
source carries a parsable timestamp. -/
theorem lastValidDate_behavior_witness :
    lastValidDate (singleHitResult (hitWithSource [("@timestamp", TsValue.validDate 42)])) none
      = some 42 :=
  ((lastValidDate_behavior (singleHitResult (hitWithSource [("@timestamp", TsValue.validDate 42)]))
      none).1 42).mpr ⟨hitWithSource [("@timestamp", TsValue.validDate 42)], rfl, rfl⟩

/-- C8: the error aggregator is a pure fold of the items, unchanged by
removing the non-contributing items — so every item whose status code is in
the ignore list is excluded entirely from the output mapping — and the
concrete unit-test cases are reproduced: no items give an empty mapping, two
identical-reason 400 items give a count of two under that reason, ignoring
409 drops the conflict items entirely, and ignoring 409 and 502 leaves only
the network error. -/
theorem errorAggregator_behavior (resp : BulkResponse) (codes : List Nat) :
    errorAggregator { items := resp.items.filter (contributesError codes) } codes
      = errorAggregator resp codes
    ∧ (∀ cs : List Nat, errorAggregator { items := [] } cs = [])
    ∧ errorAggregator { items := [bulkErrorItem 400 "Invalid call",
        bulkErrorItem 400 "Invalid call"] } []
        = [("Invalid call", 2, 400)]
    ∧ errorAggregator { items := [bulkErrorItem 409 "Conflict Error",
        bulkErrorItem 409 "Conflict Error", bulkErrorItem 500 "Bad Network",
        bulkErrorItem 502 "Bad Gateway", bulkErrorItem 502 "Bad Gateway",
        bulkErrorItem 502 "Bad Gateway"] } [409]
        = [("Bad Network", 1, 500), ("Bad Gateway", 3, 502)]
    ∧ errorAggregator { items := [bulkErrorItem 409 "Conflict Error",
        bulkErrorItem 409 "Conflict Error", bulkErrorItem 500 "Bad Network",
        bulkErrorItem 502 "Bad Gateway", bulkErrorItem 502 "Bad Gateway",
        bulkErrorItem 502 "Bad Gateway"] } [409, 502]
        = [("Bad Network", 1, 500)] := by
  refine ⟨?_, fun cs => rfl, by decide, by decide, by decide⟩
  exact errorAgg_foldl_filter codes resp.items []

/-- C8 witness: the ignored-items invariance instantiated at a conflict item
and a network error item with 409 ignored. -/
theorem errorAggregator_behavior_witness :
    errorAggregator { items := sampleBulkPair.items.filter (contributesError [409]) } [409]
      = errorAggregator sampleBulkPair [409] :=
  (errorAggregator_behavior sampleBulkPair [409]).1

/-- C9 counterexample: the identifier is the digest of a plain undelimited
concatenation, so two distinct inputs that trade a character between the
index and the document id collide: generateId of ("ab", "c") equals
generateId of ("a", "bc") with the other components fixed, although the
input tuples differ, refuting distinctness for inputs that differ in more
than one component. -/
theorem generateId_collision_counterexample :
    generateId "ab" "c" "v" "r" = generateId "a" "bc" "v" "r"
    ∧ ("ab", "c") ≠ ("a", "bc") :=
  ⟨rfl, by decide⟩

/-- C9 amended: the identifier generators are deterministic — identical
inputs give identical identifiers, modelled at the level of the hashed input
string — and inputs that differ in exactly one of the four components of
generateId (index, document id, version, rule id) give different
identifiers; a signal id changes whenever only the rule id changes; and for
wrapBuildingBlocks, repeating the same batch reproduces the same
identifiers, the identifiers within the two-block unit-test batch are
pairwise distinct (they differ only in sequence position), and every
identifier of the two-block batch differs from the identifier of the
one-block batch of the same document. -/
theorem idGenerators_deterministic_distinct :
    (∀ i d v r : String, generateId i d v r = generateId i d v r)
    ∧ (∀ i d v r r2 : String, r ≠ r2 → generateId i d v r ≠ generateId i d v r2)
    ∧ (∀ i d v v2 r : String, v ≠ v2 → generateId i d v r ≠ generateId i d v2 r)
    ∧ (∀ i d d2 v r : String, d ≠ d2 → generateId i d v r ≠ generateId i d2 v r)
    ∧ (∀ i i2 d v r : String, i ≠ i2 → generateId i d v r ≠ generateId i2 d v r)
    ∧ (∀ (parents : List SignalAncestor) (r r2 : String), r ≠ r2 →
        generateSignalId { parents := parents, rule := { id := r } }
          ≠ generateSignalId { parents := parents, rule := { id := r2 } })
    ∧ wrapBuildingBlocks [sampleSignal, sampleSignal] "test-index"
        = wrapBuildingBlocks [sampleSignal, sampleSignal] "test-index"
    ∧ ((wrapBuildingBlocks [sampleSignal, sampleSignal] "test-index").map
        (fun w => w.hitId)).Nodup
    ∧ (∀ w ∈ wrapBuildingBlocks [sampleSignal, sampleSignal] "test-index",
        ∀ w2 ∈ wrapBuildingBlocks [sampleSignal] "test-index", w.hitId ≠ w2.hitId) := by
  refine ⟨fun i d v r => rfl, ?_, ?_, ?_, ?_, ?_, rfl, by decide, by decide⟩
  · intro i d v r r2 hne heq
    exact hne (strAppend_left_cancel (a := i ++ d ++ v) heq)
  · intro i d v v2 r hne heq
    exact hne (strAppend_left_cancel (a := i ++ d)
      (strAppend_right_cancel (c := r) heq))
  · intro i d d2 v r hne heq
    exact hne (strAppend_left_cancel (a := i)
      (strAppend_right_cancel (c := v) (strAppend_right_cancel (c := r) heq)))
  · intro i i2 d v r hne heq
    exact hne (strAppend_right_cancel (c := d)
      (strAppend_right_cancel (c := v) (strAppend_right_cancel (c := r) heq)))
  · intro parents r r2 hne heq
    exact hne (strAppend_left_cancel heq)

/-- C9 witness: two identifiers that differ only in the rule id are
distinct, at the component values of the unit-test vector. -/
theorem idGenerators_deterministic_distinct_witness :
    generateId "index-123" "doc-123" "version-123" "rule-123"
      ≠ generateId "index-123" "doc-123" "version-123" "rule-456" :=
  idGenerators_deterministic_distinct.2.1 "index-123" "doc-123" "version-123"
    "rule-123" "rule-456" (by decide)

/-- C10: every field of createSearchAfterReturnType equals the supplied
override when one is present and its default otherwise — empty lists for the
four list fields, zero created count, no lookback date and success true — so
the call with no overrides returns the all-defaults record, and the concrete
partial-override unit test is reproduced. -/
theorem createSearchAfterReturnType_defaults (o : SearchAfterOverrides) :
    (createSearchAfterReturnType o).bulkCreateTimes = o.bulkCreateTimes.getD []
    ∧ (createSearchAfterReturnType o).createdSignalsCount = o.createdSignalsCount.getD 0
    ∧ (createSearchAfterReturnType o).createdSignals = o.createdSignals.getD []
    ∧ (createSearchAfterReturnType o).errors = o.errors.getD []
    ∧ (createSearchAfterReturnType o).lastLookBackDate = o.lastLookBackDate.getD none
    ∧ (createSearchAfterReturnType o).searchAfterTimes = o.searchAfterTimes.getD []
    ∧ (createSearchAfterReturnType o).success = o.success.getD true
    ∧ createSearchAfterReturnType noOverrides
        = { bulkCreateTimes := [], createdSignalsCount := 0, createdSignals := [],
            errors := [], lastLookBackDate := none, searchAfterTimes := [], success := true }
    ∧ createSearchAfterReturnType
        { noOverrides with createdSignalsCount := some 5, errors := some ["error 1"] }
        = { bulkCreateTimes := [], createdSignalsCount := 5, createdSignals := [],
            errors := ["error 1"], lastLookBackDate := none, searchAfterTimes := [],
            success := true } :=
  ⟨rfl, rfl, rfl, rfl, rfl, rfl, rfl, rfl, rfl⟩

/-- C10 witness: the success default instantiated at the empty override
record. -/
theorem createSearchAfterReturnType_defaults_witness :
    (createSearchAfterReturnType noOverrides).success = noOverrides.success.getD true :=
  (createSearchAfterReturnType_defaults noOverrides).2.2.2.2.2.2.1
